import Mathlib

/-!
Verification of the Runtime composition / lifecycle layer of the RGB wallet
library (`src/runtime.rs`).  The Rust code is shallowly embedded: paths are
lists of components, the filesystem is an explicit association list of files
plus a directory set, and the external collaborators (the `rgbfs` stock
(de)serializer, the `bpwallet` wallet loader, the `rgbstd` consignment
validator) are modelled from the behaviour the specification ascribes to
them, since their code is not part of this repository.  Panicking paths
(`expect`, `unreachable!`) are modelled as the `none` case of an `Option`.
-/

/-- A filesystem path, as its list of components
(`PathBuf::push` is list append). -/
abbrev FPath := List String

/-- `rgbstd::validation::Status` — the structured validation outcome.
Its internals are opaque to this layer; we model it as a code. -/
structure ValidationStatus where
  code : Nat
deriving DecidableEq, Repr

/-- `strict_types::encoding::DeserializeError`, the error type of
`Stock::load`: an underlying io failure (e.g. absent file) or a decoding
failure of a present blob. -/
inductive DeserializeError where
  | ioAbsent : DeserializeError
  | decode : Nat → DeserializeError
deriving DecidableEq, Repr

/-- A Bitcoin transaction outpoint (txid, vout). -/
structure Outpoint where
  txid : Nat
  vout : Nat
deriving DecidableEq, Repr

/-- `rgbstd::containers::XchainOutpoint` — an outpoint tagged with the
chain it lives on (Bitcoin or Liquid). -/
inductive XchainOutpoint where
  | bitcoin : Outpoint → XchainOutpoint
  | liquid : Outpoint → XchainOutpoint
deriving DecidableEq, Repr

/-- The wallet, reduced to what this layer reads from it: `coins()`
enumerates the outpoints of the currently tracked UTXOs. -/
structure Wallet where
  coins : List Outpoint
deriving DecidableEq, Repr

/-- `bpstd::Network`. -/
inductive Network where
  | mainnet | testnet3 | testnet4 | signet | regtest
deriving DecidableEq, Repr

/-- The `Display` textual form of `Network`, used for the per-network data
subdirectory. -/
def Network.toText : Network → String
  | .mainnet => "bitcoin"
  | .testnet3 => "testnet"
  | .testnet4 => "testnet4"
  | .signet => "signet"
  | .regtest => "regtest"

/-- `Network::is_testnet`. -/
def Network.is_testnet : Network → Bool
  | .mainnet => false
  | _ => true

/-- `bpstd::AddressNetwork`. -/
inductive AddressNetwork where
  | mainnet | testnet | regtest
deriving DecidableEq, Repr

/-- The `From<Network> for AddressNetwork` conversion used by
`Runtime::address_network`. -/
def Network.toAddressNetwork : Network → AddressNetwork
  | .mainnet => .mainnet
  | .testnet3 => .testnet
  | .testnet4 => .testnet
  | .signet => .testnet
  | .regtest => .regtest

/-- The contract-state store (`Stock`): opaque to this layer beyond
load/store/import/accept; modelled as abstract contents. -/
structure Stock where
  data : Nat
deriving DecidableEq, Repr

instance : Inhabited Stock := ⟨⟨0⟩⟩

/-- `bpwallet::LoadError`, the error type of the standard loader of the wallet. -/
inductive BpLoadError where
  | absent : BpLoadError
  | decode : Nat → BpLoadError
deriving DecidableEq, Repr

/-- `std::convert::Infallible` — an uninhabited error channel. -/
def Infallible := Empty

/-- The `RuntimeError` union (payloads of foreign error types are
abstracted to codes; the `esplora` variant is behind a disabled
feature flag and omitted). -/
inductive RuntimeError where
  | io : Nat → RuntimeError
  | serialize : Nat → RuntimeError
  | deserialize : DeserializeError → RuntimeError
  | load : Nat → RuntimeError
  | stash : Nat → RuntimeError
  | inventory : Nat → RuntimeError
  | builder : Nat → RuntimeError
  | psbtDecode : Nat → RuntimeError
  | walletUnknown : String → RuntimeError
  | invalidConsignment : ValidationStatus → RuntimeError
  | invalidId : Nat → RuntimeError
  | incompleteContract : ValidationStatus → RuntimeError
  | bp : BpLoadError → RuntimeError
  | yaml : Nat → RuntimeError
  | custom : String → RuntimeError
deriving DecidableEq, Repr

/-- `impl From<Infallible> for RuntimeError` — the body is
`unreachable!()`; since the domain is empty the function is total
anyway. -/
def RuntimeError.fromInfallible : Infallible → RuntimeError :=
  fun e => e.elim

/-- What a file on disk can hold: a serialized stock blob, a serialized
wallet, or bytes neither deserializer accepts. -/
inductive FileData where
  | stockFile : Stock → FileData
  | walletFile : Wallet → FileData
  | garbage : Nat → FileData
deriving DecidableEq, Repr

/-- The filesystem: files, the set of existing directories, and two
environment predicates saying where `fs::create_dir_all` respectively
`Stock::store` fail with an io error (permissions, disk). -/
structure FS where
  files : List (FPath × FileData)
  dirs : List FPath
  dirFail : FPath → Bool
  writeFail : FPath → Bool

/-- First-match lookup in the file table (later writes are consed in
front, so the head of the list is the current contents). -/
def lookupFile : List (FPath × FileData) → FPath → Option FileData
  | [], _ => none
  | e :: rest, p => if e.1 = p then some e.2 else lookupFile rest p

def FS.lookup (fs : FS) (p : FPath) : Option FileData :=
  lookupFile fs.files p

def FS.writeFile (fs : FS) (p : FPath) (d : FileData) : FS :=
  { fs with files := (p, d) :: fs.files }

/-- All non-empty ancestors of a path, the path itself included. -/
def FPath.ancestors (p : FPath) : List FPath :=
  (List.range p.length).map (fun k => p.take (k + 1))

/-- `fs::create_dir_all`: creates the directory and every missing
ancestor. -/
def FS.createDirAll (fs : FS) (p : FPath) : FS :=
  { fs with dirs := FPath.ancestors p ++ fs.dirs }

/-- Modelled from the spec: the `Stock::load(path)` routine of `rgbfs` (external to this
repository) deserializes the blob at `path`, failing with a
`DeserializeError` when the file is absent or does not decode. -/
def stockLoad (fs : FS) (p : FPath) : Except DeserializeError Stock :=
  match fs.lookup p with
  | some (.stockFile s) => .ok s
  | some (.walletFile _) => .error (.decode 0)
  | some (.garbage n) => .error (.decode n)
  | none => .error .ioAbsent

/-- Modelled from the spec: the `Stock::store(path)` routine of `rgbfs` (external to
this repository) serializes the stock to `path`; `none` is an io
failure. -/
def stockStore (fs : FS) (p : FPath) (s : Stock) : Option FS :=
  if fs.writeFail p then none else some (fs.writeFile p (.stockFile s))

/-- Modelled from the spec: `bpwallet::Runtime::load_standard(path)`
(external to this repository) loads the wallet through its own standard
loader from the supplied path. -/
def bpLoadStandard (fs : FS) (p : FPath) : Except BpLoadError Wallet :=
  match fs.lookup p with
  | some (.walletFile w) => .ok w
  | some (.stockFile _) => .error (.decode 0)
  | some (.garbage n) => .error (.decode n)
  | none => .error .absent

/-- The composed unit of work: contract-state store, wallet and network
context (`struct Runtime`). -/
structure Runtime where
  stock_path : FPath
  stock : Stock
  wallet : Wallet
  network : Network
deriving DecidableEq, Repr

/-- `impl OutpointFilter for Runtime`: `include_output` answers whether
the output reference equals the Bitcoin-chain outpoint of one of the
current UTXOs of the wallet. -/
def Runtime.include_output (rt : Runtime) (output : XchainOutpoint) : Bool :=
  rt.wallet.coins.any (fun utxo => XchainOutpoint.bitcoin utxo == output)

/-- `Runtime::attach` — replace the wallet in place. -/
def Runtime.attach (rt : Runtime) (wallet : Wallet) : Runtime :=
  { rt with wallet := wallet }

/-- `Runtime::address_network`. -/
def Runtime.address_network (rt : Runtime) : AddressNetwork :=
  rt.network.toAddressNetwork

/-- The wallet storage path derived by `Runtime::load`:
`data_dir` / `wallet_name` (lines 149-150). -/
def Runtime.loadWalletPath (data_dir : FPath) (wallet_name : String)
    (_network : Network) : FPath :=
  data_dir ++ [wallet_name]

/-- The wallet storage path derived by `Runtime::load_or_init`:
`data_dir` / `network` / `wallet_name` (lines 180-182). -/
def Runtime.loadOrInitWalletPath (data_dir : FPath) (wallet_name : String)
    (network : Network) : FPath :=
  data_dir ++ [network.toText, wallet_name]

/-- `Runtime::load_attach_or_init`: derive the per-network data directory,
create it recursively (io errors propagate as `RuntimeError::Io`), derive
`stock_path`, load the stock falling back to `init` on a deserialization
failure.  The generic fallback error type `E` of the source is
instantiated at `RuntimeError` (legitimate through its
`From<DeserializeError>`/identity impls); the filesystem is threaded
explicitly. -/
def Runtime.load_attach_or_init (fs : FS) (data_dir : FPath)
    (network : Network) (wallet : Wallet)
    (init : DeserializeError → Except RuntimeError Stock) :
    Except RuntimeError Runtime × FS :=
  let dataDir := data_dir ++ [network.toText]
  if fs.dirFail dataDir then (.error (.io 0), fs)
  else
    let fs1 := fs.createDirAll dataDir
    let sp := dataDir ++ ["stock.dat"]
    match stockLoad fs1 sp with
    | .ok stock => (.ok ⟨sp, stock, wallet, network⟩, fs1)
    | .error e =>
      match init e with
      | .ok stock => (.ok ⟨sp, stock, wallet, network⟩, fs1)
      | .error err => (.error err, fs1)

/-- `Runtime::load`: load the wallet through its standard loader from
`data_dir / wallet_name` (a wallet load failure converts to
`RuntimeError::Bp`), then delegate to `load_attach_or_init` with a
fallback producing the default stock (`default!()`). -/
def Runtime.load (fs : FS) (data_dir : FPath) (wallet_name : String)
    (network : Network) : Except RuntimeError Runtime × FS :=
  match bpLoadStandard fs (Runtime.loadWalletPath data_dir wallet_name network) with
  | .error e => (.error (.bp e), fs)
  | .ok wallet =>
    Runtime.load_attach_or_init fs data_dir network wallet
      (fun _ => .ok default)

/-- `Runtime::load_attach`: as `load`, but with an already-constructed
wallet. -/
def Runtime.load_attach (fs : FS) (data_dir : FPath) (network : Network)
    (bprt : Wallet) : Except RuntimeError Runtime × FS :=
  Runtime.load_attach_or_init fs data_dir network bprt
    (fun _ => .ok default)

/-- Modelled from the spec: `bpwallet::Runtime::load_standard_or_init`
(external to this repository) attempts the standard load and, on failure,
invokes the fallback of the caller with the load error to obtain a fresh
wallet descriptor (descriptor construction is folded into producing the
wallet value; whether the fresh wallet is persisted is unspecified by the
spec and not modelled). -/
def bpLoadStandardOrInit (fs : FS) (p : FPath)
    (init_wallet : BpLoadError → Except RuntimeError Wallet) :
    Except RuntimeError Wallet :=
  match bpLoadStandard fs p with
  | .ok w => .ok w
  | .error e => init_wallet e

/-- `Runtime::load_or_init`: derive the wallet path as
`data_dir / network / wallet_name`, load-or-initialize the wallet, then
delegate to `load_attach_or_init` with the stock fallback of the caller. -/
def Runtime.load_or_init (fs : FS) (data_dir : FPath) (wallet_name : String)
    (network : Network)
    (init_wallet : BpLoadError → Except RuntimeError Wallet)
    (init_stock : DeserializeError → Except RuntimeError Stock) :
    Except RuntimeError Runtime × FS :=
  match bpLoadStandardOrInit fs
      (Runtime.loadOrInitWalletPath data_dir wallet_name network) init_wallet with
  | .error e => (.error e, fs)
  | .ok wallet =>
    Runtime.load_attach_or_init fs data_dir network wallet init_stock

/-- `Runtime::store` (private): writes the stock to `stock_path`;
the `.expect("unable to save stock")` abort on an io failure is the
`none` case. -/
def Runtime.storeRt (rt : Runtime) (fs : FS) : Option FS :=
  stockStore fs rt.stock_path rt.stock

/-- `impl Drop for Runtime`: disposal calls `store`. -/
def Runtime.dropRt (rt : Runtime) (fs : FS) : Option FS :=
  rt.storeRt fs

/-- `Runtime::unload` — `pub fn unload(self) {}`.  The body is empty, but
in Rust the `self` value moved into the function is dropped when the body
ends, and the `Drop` impl runs: `unload` therefore performs the same
`store` call as any other disposal. -/
def Runtime.unload (rt : Runtime) (fs : FS) : Option FS :=
  rt.dropRt fs

/-- A transfer consignment; `validationStatus` is the
`validation_status` field the validator fills in. -/
structure Transfer where
  body : Nat
  validationStatus : Option ValidationStatus
deriving DecidableEq, Repr

/-- `Consignment::validation_status`. -/
def Transfer.validation_status (t : Transfer) : Option ValidationStatus :=
  t.validationStatus

/-- Modelled from the spec: the `Transfer::validate` routine of `rgbstd` (external to
this repository).  The transaction resolver and chain state are
abstracted into `outcome`: `none` means validation succeeded, `some st`
that it failed with status `st`.  Per the spec, on success the validated
transfer is returned unchanged; on failure the returned consignment
carries the failing validation status (the status is always set on the
failure path, which is what justifies the downstream
`expect("just validated")`). -/
def transferValidate (t : Transfer) (outcome : Option ValidationStatus)
    (_testnet : Bool) : Except Transfer Transfer :=
  match outcome with
  | none => .ok t
  | some st => .error { t with validationStatus := some st }

/-- `Runtime::validate_transfer`: validate against the per-network testnet
flag; on failure extract the status from the invalid consignment
(`expect("just validated")` is the `none` case, i.e. a panic) and report
it as `RuntimeError::InvalidConsignment`.  The `&mut self` receiver is
embedded by returning the post-state `Runtime` alongside the result. -/
def Runtime.validate_transfer (rt : Runtime) (t : Transfer)
    (outcome : Option ValidationStatus) :
    Option (Runtime × Except RuntimeError Transfer) :=
  match transferValidate t outcome rt.network.is_testnet with
  | .ok t2 => some (rt, .ok t2)
  | .error invalid =>
    match invalid.validation_status with
    | some st => some (rt, .error (.invalidConsignment st))
    | none => none

/-- Modelled from the spec: `Stock::import_contract` (external to this
repository); the contract and height resolver are abstracted into
`outcome`, which either mutates the stock in memory and yields a
validation status, or fails with a store-level error that
`Runtime::import_contract` maps into the error union. -/
def Runtime.import_contract (rt : Runtime)
    (outcome : Except RuntimeError (Stock × ValidationStatus)) :
    Runtime × Except RuntimeError ValidationStatus :=
  match outcome with
  | .ok (s, st) => ({ rt with stock := s }, .ok st)
  | .error e => (rt, .error e)

/-- Modelled from the spec: `Stock::accept_transfer` (external to this
repository); like `import_contract`, with the transfer, resolver and
`force` flag abstracted into `outcome`. -/
def Runtime.accept_transfer (rt : Runtime)
    (outcome : Except RuntimeError (Stock × ValidationStatus)) (_force : Bool) :
    Runtime × Except RuntimeError ValidationStatus :=
  match outcome with
  | .ok (s, st) => ({ rt with stock := s }, .ok st)
  | .error e => (rt, .error e)

/-- The round-trip scenario of spec section 8: Load-or-initialize, dispose
(running the flush), then Load on the same triple.  Returns `none` when a
step of the scenario itself fails, otherwise the stock held before
disposal together with the result of the second Load. -/
def roundTrip (fs : FS) (data_dir : FPath) (wallet_name : String)
    (network : Network)
    (init_wallet : BpLoadError → Except RuntimeError Wallet)
    (init_stock : DeserializeError → Except RuntimeError Stock) :
    Option (Stock × Except RuntimeError Runtime) :=
  match Runtime.load_or_init fs data_dir wallet_name network init_wallet init_stock with
  | (.ok rt, fs1) =>
    match rt.dropRt fs1 with
    | some fs2 => some (rt.stock, (Runtime.load fs2 data_dir wallet_name network).1)
    | none => none
  | (.error _, _) => none

/-- Whether an `Except` value is a success. -/
def exceptIsOk {ε : Type u} {α : Type v} : Except ε α → Bool
  | .ok _ => true
  | .error _ => false

/-- A sample wallet used for concrete instantiations. -/
def sampleWallet : Wallet := ⟨[⟨1, 0⟩, ⟨2, 1⟩]⟩

/-- A sample runtime used for concrete instantiations. -/
def sampleRuntime : Runtime :=
  ⟨["base", "testnet", "stock.dat"], ⟨7⟩, sampleWallet, .testnet3⟩

/-- An empty filesystem with no io failures. -/
def emptyFS : FS := ⟨[], [], fun _ => false, fun _ => false⟩

/-- A stock fallback producing a fresh store. -/
def freshStock : DeserializeError → Except RuntimeError Stock :=
  fun _ => .ok ⟨5⟩

/-- A wallet fallback producing a fresh wallet. -/
def freshWallet : BpLoadError → Except RuntimeError Wallet :=
  fun _ => .ok ⟨[]⟩

/-- A sample transfer used for concrete instantiations. -/
def sampleTransfer : Transfer := ⟨42, none⟩

/-- A filesystem holding one wallet file at `base/w1`, with no io
failures. -/
def walletOnlyFS : FS :=
  ⟨[(["base", "w1"], .walletFile sampleWallet)], [],
    fun _ => false, fun _ => false⟩

/-- A filesystem holding one stock file at `b/regtest/stock.dat`, with no
io failures. -/
def stockOnlyFS : FS :=
  ⟨[(["b", "regtest", "stock.dat"], .stockFile ⟨3⟩)], [],
    fun _ => false, fun _ => false⟩

/-- A filesystem on which every directory creation fails. -/
def dirFailFS : FS := ⟨[], [], fun _ => true, fun _ => false⟩

theorem FS.lookup_writeFile_self (fs : FS) (p : FPath) (v : FileData) :
    (fs.writeFile p v).lookup p = some v := by
  simp [FS.writeFile, FS.lookup, lookupFile]

theorem FS.lookup_writeFile_ne (fs : FS) {p q : FPath} (v : FileData)
    (h : q ≠ p) : (fs.writeFile p v).lookup q = fs.lookup q := by
  simp only [FS.writeFile, FS.lookup, lookupFile]
  rw [if_neg fun hh => h hh.symm]

theorem FS.lookup_createDirAll (fs : FS) (p q : FPath) :
    (fs.createDirAll q).lookup p = fs.lookup p := rfl

theorem stockLoad_createDirAll (fs : FS) (p q : FPath) :
    stockLoad (fs.createDirAll q) p = stockLoad fs p := rfl

theorem FPath.mem_ancestors_self {p : FPath} (h : p ≠ []) :
    p ∈ FPath.ancestors p := by
  have hl : 0 < p.length := List.length_pos.mpr h
  refine List.mem_map.mpr ⟨p.length - 1, List.mem_range.mpr (Nat.sub_lt hl Nat.one_pos), ?_⟩
  rw [Nat.sub_add_cancel hl, List.take_length]

/-- Characterization of a successful `load_attach_or_init`: the stock
path and the filesystem effect are fixed by the inputs. -/
theorem load_attach_or_init_ok {fs : FS} {d : FPath} {n : Network}
    {w : Wallet} {i : DeserializeError → Except RuntimeError Stock}
    {rt : Runtime} {fs2 : FS}
    (h : Runtime.load_attach_or_init fs d n w i = (.ok rt, fs2)) :
    rt.stock_path = (d ++ [n.toText]) ++ ["stock.dat"] ∧ rt.wallet = w ∧
    rt.network = n ∧ fs.dirFail (d ++ [n.toText]) = false ∧
    fs2 = fs.createDirAll (d ++ [n.toText]) := by
  simp only [Runtime.load_attach_or_init] at h
  split at h
  · simp at h
  · rename_i hd
    split at h
    · rename_i s hs
      obtain ⟨h1, h2⟩ := Prod.mk.injEq .. ▸ h
      cases h1
      exact ⟨rfl, rfl, rfl, by simpa using hd, h2.symm⟩
    · rename_i e he
      split at h
      · rename_i s hs
        obtain ⟨h1, h2⟩ := Prod.mk.injEq .. ▸ h
        cases h1
        exact ⟨rfl, rfl, rfl, by simpa using hd, h2.symm⟩
      · simp at h

/-- C1: evaluation of the code at a dirty runtime.  The claim says
`unload()` disposes of the Runtime without invoking the store routine and
leaves the on-disk bytes at `stock_path` untouched.  In the code,
`pub fn unload(self) {}` drops `self` at the end of its empty body, so the
`Drop` impl runs and `store` overwrites the on-disk stock: starting from
on-disk contents `⟨0⟩` and in-memory stock `⟨7⟩`, after `unload` the file
at `stock_path` holds `⟨7⟩`. -/
theorem unload_overwrites_on_disk_bytes :
    (Runtime.unload ⟨["base", "testnet", "stock.dat"], ⟨7⟩, ⟨[]⟩, .testnet3⟩
        ⟨[(["base", "testnet", "stock.dat"], .stockFile ⟨0⟩)], [],
          fun _ => false, fun _ => false⟩).map
      (fun fs => fs.lookup ["base", "testnet", "stock.dat"]) =
      some (some (.stockFile ⟨7⟩)) ∧
    FS.lookup
      ⟨[(["base", "testnet", "stock.dat"], .stockFile ⟨0⟩)], [],
        fun _ => false, fun _ => false⟩
      ["base", "testnet", "stock.dat"] = some (.stockFile ⟨0⟩) :=
  ⟨rfl, rfl⟩

/-- C2 counterexample: on an empty filesystem, Load-or-initialize with
fresh-wallet and fresh-stock fallbacks succeeds (stock `⟨5⟩`), disposal
flushes, but the subsequent Load fails with `Bp(absent)` — it derives the
wallet path as `base/w1` while Load-or-initialize used `base/testnet/w1`
— so no Runtime with an equal store is produced. -/
theorem round_trip_fails_on_fresh_state :
    roundTrip emptyFS ["base"] "w1" .testnet3 freshWallet freshStock =
      some (⟨5⟩, .error (.bp .absent)) := rfl

/-- C2 (amended): round-trip persistence, conditioned on the divergent
wallet path being serviceable.  If a loadable wallet exists at the wallet
path Load derives (`base_dir/wallet_name`, which is not the path
Load-or-initialize uses) and the disposal flush can write, then
Load-or-initialize (when it succeeds), followed by disposal (which runs
the flush), followed by Load on the same triple, yields a Runtime whose
contract-state store equals the store held immediately before
disposal. -/
theorem round_trip_persistence (fs : FS) (d : FPath) (w : String)
    (n : Network) (iW : BpLoadError → Except RuntimeError Wallet)
    (iS : DeserializeError → Except RuntimeError Stock) (wlt : Wallet)
    (hw : fs.lookup (Runtime.loadWalletPath d w n) = some (.walletFile wlt))
    (hwf : fs.writeFail ((d ++ [n.toText]) ++ ["stock.dat"]) = false)
    (hok : exceptIsOk (Runtime.load_or_init fs d w n iW iS).1 = true) :
    ∃ s rt2, roundTrip fs d w n iW iS = some (s, .ok rt2) ∧ rt2.stock = s := by
  cases hE : bpLoadStandardOrInit fs (Runtime.loadOrInitWalletPath d w n) iW with
  | error e =>
    rw [show Runtime.load_or_init fs d w n iW iS = (.error e, fs) by
      simp only [Runtime.load_or_init, hE]] at hok
    simp [exceptIsOk] at hok
  | ok wlt1 =>
    have hLoi : Runtime.load_or_init fs d w n iW iS =
        Runtime.load_attach_or_init fs d n wlt1 iS := by
      simp only [Runtime.load_or_init, hE]
    rw [hLoi] at hok
    cases hL : Runtime.load_attach_or_init fs d n wlt1 iS with
    | mk r fs1 =>
      cases r with
      | error e => rw [hL] at hok; simp [exceptIsOk] at hok
      | ok rt =>
        obtain ⟨hsp, hwlt, hn, hdf, hfs1⟩ := load_attach_or_init_ok hL
        have hwf1 : fs1.writeFail ((d ++ [n.toText]) ++ ["stock.dat"]) = false := by
          rw [hfs1]; exact hwf
        have hdrop : rt.dropRt fs1 = some (fs1.writeFile
            ((d ++ [n.toText]) ++ ["stock.dat"]) (.stockFile rt.stock)) := by
          simp only [Runtime.dropRt, Runtime.storeRt, stockStore, hsp, hwf1,
            Bool.false_eq_true, if_false]
        have hne : Runtime.loadWalletPath d w n ≠
            (d ++ [n.toText]) ++ ["stock.dat"] := by
          intro hc
          have hlen := congrArg List.length hc
          simp [Runtime.loadWalletPath, List.length_append] at hlen
        have hl2 : (fs1.writeFile ((d ++ [n.toText]) ++ ["stock.dat"])
              (.stockFile rt.stock)).lookup (Runtime.loadWalletPath d w n)
            = some (.walletFile wlt) := by
          rw [FS.lookup_writeFile_ne _ _ hne, hfs1]
          exact hw
        have hbp : bpLoadStandard (fs1.writeFile
              ((d ++ [n.toText]) ++ ["stock.dat"]) (.stockFile rt.stock))
            (Runtime.loadWalletPath d w n) = .ok wlt := by
          simp only [bpLoadStandard, hl2]
        have hdf2 : (fs1.writeFile ((d ++ [n.toText]) ++ ["stock.dat"])
              (.stockFile rt.stock)).dirFail (d ++ [n.toText]) = false := by
          rw [hfs1]; exact hdf
        have hsl : stockLoad ((fs1.writeFile
              ((d ++ [n.toText]) ++ ["stock.dat"])
              (.stockFile rt.stock)).createDirAll (d ++ [n.toText]))
            ((d ++ [n.toText]) ++ ["stock.dat"]) = .ok rt.stock := by
          rw [stockLoad_createDirAll]
          simp only [stockLoad, FS.lookup_writeFile_self]
        have hload : (Runtime.load (fs1.writeFile
              ((d ++ [n.toText]) ++ ["stock.dat"]) (.stockFile rt.stock))
            d w n).1 =
            .ok ⟨(d ++ [n.toText]) ++ ["stock.dat"], rt.stock, wlt, n⟩ := by
          simp only [Runtime.load, hbp, Runtime.load_attach_or_init, hdf2,
            Bool.false_eq_true, if_false, hsl]
        refine ⟨rt.stock, ⟨(d ++ [n.toText]) ++ ["stock.dat"], rt.stock, wlt, n⟩, ?_, rfl⟩
        simp only [roundTrip, hLoi, hL, hdrop, hload]

/-- C2 witness: the amended round trip at a concrete filesystem holding a
wallet at `base/w1`: both loads succeed and the store survives the
round trip. -/
theorem round_trip_persistence_inst :
    ∃ s rt2, roundTrip walletOnlyFS ["base"] "w1" .testnet3
      freshWallet freshStock = some (s, .ok rt2) ∧ rt2.stock = s :=
  round_trip_persistence walletOnlyFS ["base"] "w1" .testnet3
    freshWallet freshStock sampleWallet rfl rfl rfl

/-- C3: directory derivation.  Every successful
`load_attach_or_init` (the common tail of load and load-or-initialize)
places the contract-state store at exactly
`base_dir / network textual form / "stock.dat"` and has created the
network-specific subdirectory; when directory creation fails the
operation fails with the `Io` error variant and leaves the filesystem
unchanged. -/
theorem directory_derivation (fs : FS) (d : FPath) (n : Network)
    (w : Wallet) (i : DeserializeError → Except RuntimeError Stock) :
    (∀ rt fs2, Runtime.load_attach_or_init fs d n w i = (.ok rt, fs2) →
        rt.stock_path = (d ++ [n.toText]) ++ ["stock.dat"] ∧
        (d ++ [n.toText]) ∈ fs2.dirs) ∧
    (fs.dirFail (d ++ [n.toText]) = true →
        Runtime.load_attach_or_init fs d n w i = (.error (.io 0), fs)) := by
  constructor
  · intro rt fs2 h
    obtain ⟨hsp, _, _, _, hfs2⟩ := load_attach_or_init_ok h
    refine ⟨hsp, ?_⟩
    rw [hfs2]
    simp only [FS.createDirAll, List.mem_append]
    exact Or.inl (FPath.mem_ancestors_self (by simp))
  · intro hd
    simp only [Runtime.load_attach_or_init, hd, if_true]

/-- C3 witness: at a filesystem with a stored stock the derived location
is `b/regtest/stock.dat` and `b/regtest` has been created; on a
filesystem where directory creation fails the operation returns the
`Io` error. -/
theorem directory_derivation_inst :
    ((["b", "regtest"] : FPath) ∈
      (Runtime.load_attach_or_init stockOnlyFS ["b"] .regtest
        sampleWallet freshStock).2.dirs) ∧
    Runtime.load_attach_or_init dirFailFS ["b"] .regtest sampleWallet
      freshStock = (.error (.io 0), dirFailFS) :=
  ⟨((directory_derivation stockOnlyFS ["b"] .regtest sampleWallet
      freshStock).1 ⟨["b", "regtest", "stock.dat"], ⟨3⟩, sampleWallet, .regtest⟩
      (FS.createDirAll stockOnlyFS ["b", "regtest"]) rfl).2,
    (directory_derivation dirFailFS ["b"] .regtest sampleWallet
      freshStock).2 rfl⟩

/-- C4 counterexample: at base directory `base`, wallet name `w1` and
network testnet3, Load derives the wallet storage path `base/w1` while
Load-or-initialize derives `base/testnet/w1` — the two operations do not
derive the same wallet storage path. -/
theorem wallet_paths_differ :
    Runtime.loadWalletPath ["base"] "w1" .testnet3 ≠
      Runtime.loadOrInitWalletPath ["base"] "w1" .testnet3 := by
  decide

/-- C4 (amended): Load and Load-or-initialize are behaviourally identical
except for the two fallback closures and the wallet storage path: the
path Load-or-initialize derives from `(base_dir, wallet_name, network)`
equals the path Load would derive from base directory
`base_dir / network`; once the wallet step succeeds, each operation is
exactly `load_attach_or_init` on the same base directory and network with
its respective stock fallback. -/
theorem load_vs_load_or_init (d : FPath) (w : String) (n : Network) :
    Runtime.loadOrInitWalletPath d w n =
      Runtime.loadWalletPath (d ++ [n.toText]) w n ∧
    (∀ fs wlt iS iW, bpLoadStandardOrInit fs
        (Runtime.loadOrInitWalletPath d w n) iW = .ok wlt →
      Runtime.load_or_init fs d w n iW iS =
        Runtime.load_attach_or_init fs d n wlt iS) ∧
    (∀ fs wlt, bpLoadStandard fs (Runtime.loadWalletPath d w n) = .ok wlt →
      Runtime.load fs d w n =
        Runtime.load_attach_or_init fs d n wlt (fun _ => .ok default)) := by
  refine ⟨?_, ?_, ?_⟩
  · simp [Runtime.loadOrInitWalletPath, Runtime.loadWalletPath]
  · intro fs wlt iS iW h
    simp only [Runtime.load_or_init, h]
  · intro fs wlt h
    simp only [Runtime.load, h]

/-- C4 witness: the amended relation at base directory `base`, wallet
name `w1`, network testnet3, with the sample wallet on disk for the Load
branch. -/
theorem load_vs_load_or_init_inst :
    Runtime.loadOrInitWalletPath ["base"] "w1" .testnet3 =
      Runtime.loadWalletPath (["base"] ++ [Network.toText .testnet3]) "w1"
        .testnet3 ∧
    Runtime.load walletOnlyFS ["base"] "w1" .testnet3 =
      Runtime.load_attach_or_init walletOnlyFS ["base"] .testnet3
        sampleWallet (fun _ => .ok default) :=
  ⟨(load_vs_load_or_init ["base"] "w1" .testnet3).1,
    (load_vs_load_or_init ["base"] "w1" .testnet3).2.2 walletOnlyFS
      sampleWallet rfl⟩

/-- C5: the Ownership Filter is a total boolean predicate with no error
path and no mutation: `include_output` returns true exactly when the
output reference equals the Bitcoin-chain form of an outpoint currently
enumerated by the UTXO set of the wallet; the same holds immediately
after `attach` replaces the wallet, and `attach` leaves the store, the
store path and the network untouched. -/
theorem ownership_filter_spec (rt : Runtime) (o : XchainOutpoint)
    (w2 : Wallet) :
    (rt.include_output o = true ↔
      ∃ u ∈ rt.wallet.coins, XchainOutpoint.bitcoin u = o) ∧
    ((rt.attach w2).include_output o = true ↔
      ∃ u ∈ w2.coins, XchainOutpoint.bitcoin u = o) ∧
    (rt.attach w2).wallet = w2 ∧ (rt.attach w2).stock = rt.stock ∧
    (rt.attach w2).stock_path = rt.stock_path ∧
    (rt.attach w2).network = rt.network := by
  refine ⟨?_, ?_, rfl, rfl, rfl, rfl⟩ <;>
    simp [Runtime.include_output, Runtime.attach, List.any_eq_true]

/-- C5 witness: the filter applied after an `attach` at a concrete
runtime and outpoint. -/
theorem ownership_filter_spec_inst :
    ∃ u ∈ sampleWallet.coins,
      XchainOutpoint.bitcoin u = XchainOutpoint.bitcoin ⟨1, 0⟩ :=
  (ownership_filter_spec sampleRuntime (XchainOutpoint.bitcoin ⟨1, 0⟩)
    sampleWallet).2.1.mp (by decide)

/-- C6: no Runtime operation panics.  The two potentially panicking
spots both stay unreached: the `expect("just validated")` in
`validate_transfer` (its panic is the `none` case of the embedding, never
produced because the validator always sets the status on the failure
path), and the `From<Infallible>` conversion (vacuously total, its domain
being empty).  Every other operation returns its failures as
`RuntimeError` values by construction; the one aborting path in the code
is the `expect` inside the flush performed on disposal. -/
theorem runtime_operations_no_panic :
    (∀ (rt : Runtime) (t : Transfer) (oc : Option ValidationStatus),
      (rt.validate_transfer t oc).isSome = true) ∧
    (∀ e : Infallible, RuntimeError.fromInfallible e = .custom "") := by
  constructor
  · intro rt t oc
    cases oc <;> rfl
  · intro e
    exact e.elim

/-- C7: error mapping of `validate_transfer`.  When validation fails
with status `st`, the result is the `InvalidConsignment` variant
carrying exactly that full validation status; when validation succeeds,
the validated transfer is returned unchanged (and the runtime state is
untouched in both cases). -/
theorem validate_transfer_error_mapping (rt : Runtime) (t : Transfer) :
    (∀ st, rt.validate_transfer t (some st) =
      some (rt, .error (.invalidConsignment st))) ∧
    rt.validate_transfer t none = some (rt, .ok t) := by
  exact ⟨fun st => rfl, rfl⟩

/-- C8: `validate_transfer` never mutates persisted state.  Whatever the
validation outcome, whenever the call returns (rather than panicking),
the post-state Runtime has the same `stock`, `stock_path` and `network`
as before the call (and the wallet, only ever read, is unchanged
too). -/
theorem validate_transfer_frame (rt : Runtime) (t : Transfer)
    (oc : Option ValidationStatus) (rt2 : Runtime)
    (res : Except RuntimeError Transfer)
    (h : rt.validate_transfer t oc = some (rt2, res)) :
    rt2.stock = rt.stock ∧ rt2.stock_path = rt.stock_path ∧
    rt2.network = rt.network ∧ rt2.wallet = rt.wallet := by
  cases oc <;>
    simp only [Runtime.validate_transfer, transferValidate,
      Transfer.validation_status, Option.some.injEq, Prod.mk.injEq] at h <;>
    obtain ⟨h1, -⟩ := h <;> rw [← h1] <;> exact ⟨rfl, rfl, rfl, rfl⟩

/-- C8 witness: the frame conditions at a concrete successful
validation. -/
theorem validate_transfer_frame_inst :
    sampleRuntime.stock = sampleRuntime.stock ∧
    sampleRuntime.stock_path = sampleRuntime.stock_path ∧
    sampleRuntime.network = sampleRuntime.network ∧
    sampleRuntime.wallet = sampleRuntime.wallet :=
  validate_transfer_frame sampleRuntime sampleTransfer none sampleRuntime
    (.ok sampleTransfer) rfl

/-- C9: store-derivation fallback in `load_attach_or_init`.  When loading
the store from `stock_path` fails with deserialization error `e` and the
caller-supplied fallback maps `e` to a fresh store `s`, the operation
succeeds with exactly `s` (the original error is not propagated); when
loading succeeds, the result does not depend on the fallback at all —
it is never invoked. -/
theorem store_derivation_fallback (fs : FS) (d : FPath) (n : Network)
    (w : Wallet) (i1 i2 : DeserializeError → Except RuntimeError Stock) :
    (∀ e s, fs.dirFail (d ++ [n.toText]) = false →
      stockLoad fs ((d ++ [n.toText]) ++ ["stock.dat"]) = .error e →
      i1 e = .ok s →
      (Runtime.load_attach_or_init fs d n w i1).1 =
        .ok ⟨(d ++ [n.toText]) ++ ["stock.dat"], s, w, n⟩) ∧
    (exceptIsOk (stockLoad fs ((d ++ [n.toText]) ++ ["stock.dat"])) = true →
      Runtime.load_attach_or_init fs d n w i1 =
        Runtime.load_attach_or_init fs d n w i2) := by
  have hca : stockLoad (fs.createDirAll (d ++ [n.toText]))
      ((d ++ [n.toText]) ++ ["stock.dat"]) =
      stockLoad fs ((d ++ [n.toText]) ++ ["stock.dat"]) :=
    stockLoad_createDirAll ..
  constructor
  · intro e s hd hl hi
    simp only [Runtime.load_attach_or_init, hd, Bool.false_eq_true,
      if_false, hca, hl, hi]
  · intro hok
    cases hl : stockLoad fs ((d ++ [n.toText]) ++ ["stock.dat"]) with
    | error e => rw [hl] at hok; simp [exceptIsOk] at hok
    | ok s =>
      simp only [Runtime.load_attach_or_init, hca, hl]

/-- C9 witness: both branches at concrete filesystems — on the empty
filesystem the fallback supplies the fresh store `⟨5⟩`; on a filesystem
already holding a stock, the result is the same for two distinct
fallbacks. -/
theorem store_derivation_fallback_inst :
    (Runtime.load_attach_or_init emptyFS ["b"] .regtest sampleWallet
        freshStock).1 =
      .ok ⟨["b", "regtest", "stock.dat"], ⟨5⟩, sampleWallet, .regtest⟩ ∧
    Runtime.load_attach_or_init stockOnlyFS ["b"] .regtest sampleWallet
        freshStock =
      Runtime.load_attach_or_init stockOnlyFS ["b"] .regtest sampleWallet
        (fun _ => .error (.custom "no fallback")) :=
  ⟨by
    have h := (store_derivation_fallback emptyFS ["b"] .regtest
      sampleWallet freshStock freshStock).1 .ioAbsent ⟨5⟩ rfl rfl rfl
    simpa using h,
   (store_derivation_fallback stockOnlyFS ["b"] .regtest sampleWallet
      freshStock (fun _ => .error (.custom "no fallback"))).2 rfl⟩

/-- C10: the Ownership Filter only ever matches Bitcoin-chain outpoints —
for every output reference on the Liquid chain, `include_output` returns
false, whatever outpoints (including ones with identical coordinates)
the UTXO set of the wallet currently enumerates. -/
theorem ownership_filter_bitcoin_only (rt : Runtime) (op : Outpoint) :
    rt.include_output (.liquid op) = false := by
  simp only [Runtime.include_output, List.any_eq_false]
  intro u _
  simp
